import Mathlib

/-
Shallow embedding of the WaveSpeedAI/netlify-cms-oauth request handlers:
  - src/api/callback.ts   (OAuth callback: code cache, token exchange, result scripts)
  - src/api/upload.ts     (two upload handler variants, org-membership verification,
                           upload relay to the downstream storage API)
  - the login-initiation handler (src/unnamed/part_000)

JavaScript values flowing through the handlers are modelled by an inductive
type of JSON values; JS truthiness, property access and template-literal
stringification are modelled explicitly.  Outbound network interactions are
modelled as oracle inputs (a wire value describing what the network returned),
so a handler becomes a pure function from request, environment, state and
wire to a response, a new state and a trace of outbound calls.
-/

namespace NetlifyCmsOauth

/-- JSON / JavaScript values as they appear in the handlers.  Objects are
assumed duplicate-key free (as produced by JSON.parse after last-wins
collapsing). -/
inductive Json where
  | null : Json
  | bool : Bool → Json
  | num : Int → Json
  | str : String → Json
  | arr : List Json → Json
  | obj : List (String × Json) → Json
deriving Repr

/-- JS truthiness of a value (0, "", false, null are falsy; objects and
arrays are truthy). -/
def Json.truthy : Json → Bool
  | .null => false
  | .bool b => b
  | .num n => n != 0
  | .str s => s != ""
  | .arr _ => true
  | .obj _ => true

/-- First-match field lookup in an object field list. -/
def getField : List (String × Json) → String → Option Json
  | [], _ => none
  | (k', v) :: rest, k => if k' = k then some v else getField rest k

/-- JS property access `j.k`: `some` is a defined property value, `none` is
`undefined` (access on a non-object non-null value yields undefined;
access on null throws, which callers model separately). -/
def Json.get : Json → String → Option Json
  | .obj fs, k => getField fs k
  | _, _ => none

/-- Truthiness of a possibly-undefined JS value (undefined is falsy). -/
def jsTruthy : Option Json → Bool
  | none => false
  | some j => j.truthy

/-- A JS string-or-undefined environment/header/query value is falsy when it
is absent (undefined/null) or the empty string. -/
def strFalsy : Option String → Bool
  | none => true
  | some s => s == ""

mutual

/-- JS template-literal / String() conversion of a value. -/
def jsToString : Json → String
  | .null => "null"
  | .bool b => cond b "true" "false"
  | .num n => toString n
  | .str s => s
  | .arr xs => jsItemsToString xs
  | .obj _ => "[object Object]"

/-- Array toString: items joined by commas, null items rendered empty. -/
def jsItemsToString : List Json → String
  | [] => ""
  | [.null] => ""
  | [x] => jsToString x
  | .null :: xs => "," ++ jsItemsToString xs
  | x :: xs => jsToString x ++ "," ++ jsItemsToString xs

end

/-- Lowercase hexadecimal digit for a value below 16. -/
def hexDigit (n : Nat) : Char :=
  "0123456789abcdef".data.getD n '0'

/-- Numeric value of a lowercase hexadecimal digit. -/
def hexVal (c : Char) : Nat :=
  match c with
  | '0' => 0 | '1' => 1 | '2' => 2 | '3' => 3 | '4' => 4
  | '5' => 5 | '6' => 6 | '7' => 7 | '8' => 8 | '9' => 9
  | 'a' => 10 | 'b' => 11 | 'c' => 12 | 'd' => 13 | 'e' => 14 | 'f' => 15
  | _ => 0

/-- JSON string escaping of one character, as JSON.stringify performs it. -/
def jsonEscapeChar (c : Char) : String :=
  if c = '"' then "\\\""
  else if c = '\\' then "\\\\"
  else if c = '\n' then "\\n"
  else if c = '\r' then "\\r"
  else if c = '\t' then "\\t"
  else if c.toNat < 32 then
    "\\u00" ++ String.mk [hexDigit (c.toNat / 16), hexDigit (c.toNat % 16)]
  else String.singleton c

/-- JSON string escaping, as JSON.stringify performs it. -/
def jsonEscape (s : String) : String :=
  String.join (s.data.map jsonEscapeChar)

mutual

/-- JSON.stringify of a value (no spacing). -/
def Json.stringify : Json → String
  | .null => "null"
  | .bool b => cond b "true" "false"
  | .num n => toString n
  | .str s => "\"" ++ jsonEscape s ++ "\""
  | .arr xs => "[" ++ stringifyItems xs ++ "]"
  | .obj fs => "\x7b" ++ stringifyFields fs ++ "\x7d"

/-- Comma-joined stringification of array items. -/
def stringifyItems : List Json → String
  | [] => ""
  | [x] => Json.stringify x
  | x :: xs => Json.stringify x ++ "," ++ stringifyItems xs

/-- Comma-joined stringification of object fields. -/
def stringifyFields : List (String × Json) → String
  | [] => ""
  | [(k, v)] => "\"" ++ jsonEscape k ++ "\":" ++ Json.stringify v
  | (k, v) :: fs => "\"" ++ jsonEscape k ++ "\":" ++ Json.stringify v ++ "," ++ stringifyFields fs

end

/-! ## Result Notifier scripts and HTTP responses (callback.ts lines 53-86) -/

/-- One action performed by the script payload sent to the popup. -/
inductive ScriptAction where
  | postMessage (msg : String)
  | delay (ms : Nat)
  | windowClose
deriving Repr

/-- The error script of the callback catch branch: a single postMessage of
the error signal, no window.close (callback.ts lines 55-65). -/
def errorScript (provider msg : String) : List ScriptAction :=
  [ .postMessage ("authorization:" ++ provider ++ ":error:"
      ++ Json.stringify (.obj [("error", .str msg)])) ]

/-- The success script (callback.ts sendSuccess, lines 69-86): an
authorizing signal, a 100ms delay, the success signal, window.close. -/
def successScript (provider : String) (token : Json) : List ScriptAction :=
  [ .postMessage ("authorizing:" ++ provider),
    .delay 100,
    .postMessage ("authorization:" ++ provider ++ ":success:"
      ++ Json.stringify (.obj [("token", token), ("provider", .str provider)])),
    .windowClose ]

/-- Response bodies produced by the handlers. -/
inductive ResponseBody where
  | script (acts : List ScriptAction)
  | text (s : String)
  | json (j : Json)
  | empty
deriving Repr

/-- JSON body of shape { error: msg } as produced by res.end(JSON.stringify(...)). -/
def errJson (m : String) : ResponseBody :=
  .json (.obj [("error", .str m)])

/-! ## Code Cache (callback.ts lines 4-15) -/

/-- A cache entry: the exchanged token and its insertion timestamp. -/
structure CacheEntry where
  token : Json
  timestamp : Nat
deriving Repr

/-- The usedCodes map, keyed by the raw code string, insertion-ordered. -/
abbrev Cache := List (String × CacheEntry)

/-- Map.get: first (and by invariant only) entry for the key. -/
def cacheGet : Cache → String → Option CacheEntry
  | [], _ => none
  | (k', v) :: rest, k => if k' = k then some v else cacheGet rest k

/-- Map.set: replace the value in place when present, else append. -/
def cacheSet : Cache → String → CacheEntry → Cache
  | [], k, v => [(k, v)]
  | (k', v') :: rest, k, v =>
    if k' = k then (k', v) :: rest else (k', v') :: cacheSet rest k v

/-- Retention window of a cache entry: 5 * 60 * 1000 ms (callback.ts line 11). -/
def retentionMs : Nat := 5 * 60 * 1000

/-- Period of the sweep timer: 60 * 1000 ms (callback.ts line 15). -/
def sweepIntervalMs : Nat := 60 * 1000

/-- One sweep tick (callback.ts lines 8-15): delete every entry whose age
now - timestamp exceeds the retention window, keep the rest in order. -/
def sweep (now : Nat) (c : Cache) : Cache :=
  c.filter (fun e => !(now - e.2.timestamp > retentionMs))

/-! ## Token Exchanger (callback.ts lines 88-111 and 36-47) -/

/-- What the network returned for the outbound token-exchange request:
either a transport error, or a response body that JSON.parse either
parsed (some) or failed on (none). -/
inductive ExchangeWire where
  | networkError (msg : String)
  | response (body : Option Json)

/-- exchangeToken (callback.ts lines 88-111): resolves the parsed JSON body,
rejects with the network error message on transport failure and with
a fixed message when the body does not parse. -/
def exchangeToken : ExchangeWire → Except String Json
  | .networkError m => .error m
  | .response none => .error "Invalid response from GitHub"
  | .response (some j) => .ok j

/-- Outcome of the exchange phase of the callback handler. -/
inductive TokenOutcome where
  | success (token : Json)
  | failure (msg : String)
deriving Repr

/-- Template-literal rendering of a possibly-undefined field. -/
def jsOptToString : Option Json → String
  | none => "undefined"
  | some j => jsToString j

/-- The access_token check (callback.ts lines 44-47): a falsy or absent
access_token field fails with a fixed message. -/
def accessTokenCheck (tokenData : Json) : TokenOutcome :=
  match tokenData.get "access_token" with
  | some t => if t.truthy then .success t else .failure "No access_token in response"
  | none => .failure "No access_token in response"

/-- The exchange phase of the callback handler (lines 38-47 around
exchangeToken): propagate exchange rejections; on a truthy error field
throw the combined provider message; otherwise require a truthy
access_token.  A parsed null body throws on property access (caught by
the handler catch). -/
def tokenPhase (w : ExchangeWire) : TokenOutcome :=
  match exchangeToken w with
  | .error m => .failure m
  | .ok .null => .failure "Cannot read properties of null (reading 'error')"
  | .ok tokenData =>
    match tokenData.get "error" with
    | some e =>
      if e.truthy then
        .failure ("GitHub: " ++ jsToString e ++ " - "
          ++ jsOptToString (tokenData.get "error_description"))
      else accessTokenCheck tokenData
    | none => accessTokenCheck tokenData

/-! ## Callback handler (callback.ts lines 17-67) -/

/-- The provider constant (callback.ts line 21). -/
def provider : String := "github"

/-- Result of one callback-handler invocation: the HTTP response, the cache
after the request, and whether the outbound token exchange was attempted. -/
structure CallbackResult where
  status : Nat
  body : ResponseBody
  cache : Cache
  exchangeCalled : Bool

/-- The catch branch of the callback handler: status 200 with the error
script, cache untouched. -/
def callbackError (cache : Cache) (exchanged : Bool) (m : String) : CallbackResult :=
  ⟨200, .script (errorScript provider m), cache, exchanged⟩

/-- The callback handler (callback.ts lines 17-67) as a pure function of the
code query parameter, the two credential environment variables, the cache
state, the exchange wire and the current time. -/
def callbackHandler (code client_id client_secret : Option String)
    (cache : Cache) (w : ExchangeWire) (now : Nat) : CallbackResult :=
  if strFalsy code then callbackError cache false "Missing code"
  else if strFalsy client_id || strFalsy client_secret then
    callbackError cache false "Missing credentials"
  else
    let c := code.getD ""
    match cacheGet cache c with
    | some entry => ⟨200, .script (successScript provider entry.token), cache, false⟩
    | none =>
      match tokenPhase w with
      | .success token =>
        ⟨200, .script (successScript provider token), cacheSet cache c ⟨token, now⟩, true⟩
      | .failure m => callbackError cache true m

/-! ## Login-initiation handler (src/unnamed/part_000) -/

/-- Hex characters of a byte list, two lowercase digits per byte
(Buffer.toString with hex encoding). -/
def toHexChars : List Nat → List Char
  | [] => []
  | b :: bs => hexDigit (b / 16) :: hexDigit (b % 16) :: toHexChars bs

/-- Buffer.toString hex encoding of a byte list. -/
def toHex (bs : List Nat) : String :=
  String.mk (toHexChars bs)

/-- Inverse of toHexChars, used to establish injectivity of the state token. -/
def fromHexChars : List Char → List Nat
  | c1 :: c2 :: rest => (hexVal c1 * 16 + hexVal c2) :: fromHexChars rest
  | _ => []

/-- Whether a character is a lowercase hexadecimal digit. -/
def isLowerHexDigit (c : Char) : Bool :=
  "0123456789abcdef".data.contains c

/-- Result of the login handler: status, optional Location target (base
authorize endpoint plus query parameters, in order), and body. -/
structure LoginResult where
  status : Nat
  location : Option (String × List (String × String))
  body : ResponseBody

/-- The login-initiation handler (src/unnamed/part_000): with a falsy client
id respond 500 with a plain-text body; otherwise respond 301 with the
provider authorize endpoint carrying client_id, redirect_uri, scope and a
state token that hex-encodes the 8 random bytes. -/
def loginHandler (host : String) (client_id : Option String)
    (randBytes : List Nat) : LoginResult :=
  if strFalsy client_id then
    ⟨500, none, .text "Missing OAUTH_GITHUB_CLIENT_ID"⟩
  else
    ⟨301,
     some ("https://github.com/login/oauth/authorize",
       [("client_id", client_id.getD ""),
        ("redirect_uri", "https://" ++ host ++ "/callback"),
        ("scope", "repo,user"),
        ("state", toHex randBytes)]),
     .empty⟩

/-! ## Membership Verifier (upload.ts auth variant, lines 176-236) -/

/-- What the network returned for one outbound JSON request: transport
error, or a body that parsed (some) or not (none). -/
inductive NetResult where
  | netError
  | body (parse : Option Json)

/-- getUsername (upload.ts lines 207-236): null on transport failure,
unparseable body, or a falsy login field; otherwise the login value.
A parsed null body throws on property access, caught to null. -/
def getUsername : NetResult → Option Json
  | .netError => none
  | .body none => none
  | .body (some .null) => none
  | .body (some u) =>
    match u.get "login" with
    | some l => if l.truthy then some l else none
    | none => none

/-- What the network returned for the org-membership check: transport error
or an HTTP status code. -/
inductive MemberWire where
  | netError
  | status (code : Nat)

/-- The two oracle inputs consumed by checkOrgMembership. -/
structure MembershipWire where
  identity : NetResult
  member : MemberWire

/-- One outbound network call made by the upload handler, with the
credentials it carries. -/
inductive OutboundCall where
  | identityLookup (token : String)
  | membershipCheck (username : String) (token : String)
  | uploadRelay (apiKey : String) (contentType : String)
deriving Repr, DecidableEq

/-- checkOrgMembership (upload.ts lines 176-205): look up the username with
the bearer token; without a username the result is false and no
membership call is made; with one, the membership endpoint is called and
the result is true exactly for status 204 (transport errors resolve
false).  Returns the decision and the trace of outbound calls. -/
def checkOrgMembership (token : String) (w : MembershipWire) :
    Bool × List OutboundCall :=
  match getUsername w.identity with
  | none => (false, [.identityLookup token])
  | some l =>
    ((match w.member with
      | .netError => false
      | .status c => c == 204),
     [.identityLookup token, .membershipCheck (jsToString l) token])

/-! ## Upload Relay (upload.ts lines 238-278) -/

/-- What the network returned for the downstream upload: a transport error
with its message, or a response body (parsed or not). -/
inductive UploadNet where
  | netError (msg : String)
  | response (body : Option Json)

/-- Outcome of the uploadToWaveSpeed promise. -/
inductive UploadOutcome where
  | resolved (url : Json)
  | rejected (msg : String)
deriving Repr

/-- Response normalization of uploadToWaveSpeed (upload.ts lines 260-271):
resolve { url: full_path } when the parsed body has numeric code 200 and
a truthy data.full_path; otherwise reject with the truthy message field
or the fixed fallback; an unparseable or null body rejects with a fixed
message. -/
def uploadParse (parse : Option Json) : UploadOutcome :=
  match parse with
  | none => .rejected "Invalid response from upload API"
  | some .null => .rejected "Invalid response from upload API"
  | some parsed =>
    let fullPath : Option Json :=
      match parsed.get "data" with
      | some .null => none
      | some d => d.get "full_path"
      | none => none
    if (match parsed.get "code" with
        | some (.num n) => n == 200
        | _ => false) && jsTruthy fullPath then
      .resolved (fullPath.getD .null)
    else
      .rejected (match parsed.get "message" with
        | some m => if m.truthy then jsToString m else "Upload failed"
        | none => "Upload failed")

/-! ## Upload handlers (upload.ts lines 4-56 and 104-174) -/

/-- The inbound upload request: method and the two relevant headers. -/
structure UploadRequest where
  method : String
  authorization : Option String
  contentType : Option String

/-- Oracle inputs consumed by the auth upload handler. -/
structure UploadWire where
  membership : MembershipWire
  upload : UploadNet

/-- Result of one upload-handler invocation: response plus the ordered trace
of outbound calls made. -/
structure UploadResult where
  status : Nat
  body : ResponseBody
  calls : List OutboundCall

/-- String startsWith, modelled on character lists. -/
def strStartsWith (s p : String) : Bool :=
  p.data.isPrefixOf s.data

/-- Split a character list around the first occurrence of a pattern. -/
def firstMatchSplit (pat : List Char) : List Char → Option (List Char × List Char)
  | [] => if pat.isPrefixOf ([] : List Char) then some ([], []) else none
  | c :: rest =>
    if pat.isPrefixOf (c :: rest) then some ([], (c :: rest).drop pat.length)
    else match firstMatchSplit pat rest with
      | some (b, a) => some (c :: b, a)
      | none => none

/-- JS String.replace with a string pattern: replace only the first
occurrence. -/
def replaceFirst (s pat rep : String) : String :=
  match firstMatchSplit pat.data s.data with
  | none => s
  | some (b, a) => String.mk (b ++ rep.data ++ a)

/-- The upload handler with org-membership verification (upload.ts lines
104-174): CORS preflight, method check, bearer-header check, membership
verification, API-key check, content-type check, then the relay. -/
def uploadAuthHandler (req : UploadRequest) (apiKey : Option String)
    (w : UploadWire) : UploadResult :=
  if req.method = "OPTIONS" then ⟨200, .empty, []⟩
  else if req.method ≠ "POST" then ⟨405, errJson "Method not allowed", []⟩
  else if strFalsy req.authorization
       || !(strStartsWith (req.authorization.getD "") "Bearer ") then
    ⟨401, errJson "Missing authorization token", []⟩
  else
    let githubToken := replaceFirst (req.authorization.getD "") "Bearer " ""
    let m := checkOrgMembership githubToken w.membership
    if !m.1 then
      ⟨403, errJson "You must be a member of the WaveSpeedAI organization", m.2⟩
    else if strFalsy apiKey then ⟨500, errJson "Missing upload API key", m.2⟩
    else if strFalsy req.contentType then ⟨400, errJson "Missing content-type", m.2⟩
    else
      let calls := m.2 ++ [.uploadRelay (apiKey.getD "") (req.contentType.getD "")]
      match w.upload with
      | .netError msg => ⟨500, errJson msg, calls⟩
      | .response b =>
        match uploadParse b with
        | .resolved url => ⟨200, .json (.obj [("url", url)]), calls⟩
        | .rejected msg => ⟨500, errJson msg, calls⟩

/-- The plain upload handler variant (upload.ts lines 4-56): no auth or
membership step; the API key is checked before any outbound call. -/
def uploadPlainHandler (req : UploadRequest) (apiKey : Option String)
    (u : UploadNet) : UploadResult :=
  if req.method = "OPTIONS" then ⟨200, .empty, []⟩
  else if req.method ≠ "POST" then ⟨405, errJson "Method not allowed", []⟩
  else if strFalsy apiKey then ⟨500, errJson "Missing upload API key", []⟩
  else if strFalsy req.contentType then ⟨400, errJson "Missing content-type", []⟩
  else
    let calls := [OutboundCall.uploadRelay (apiKey.getD "") (req.contentType.getD "")]
    match u with
    | .netError msg => ⟨500, errJson msg, calls⟩
    | .response b =>
      match uploadParse b with
      | .resolved url => ⟨200, .json (.obj [("url", url)]), calls⟩
      | .rejected msg => ⟨500, errJson msg, calls⟩

/-! ## Cache lemmas -/

theorem cacheGet_set_self (c : Cache) (k : String) (v : CacheEntry) :
    cacheGet (cacheSet c k v) k = some v := by
  induction c with
  | nil => simp [cacheSet, cacheGet]
  | cons hd tl ih =>
    obtain ⟨k', v'⟩ := hd
    by_cases h : k' = k
    · simp [cacheSet, cacheGet, h]
    · simp [cacheSet, cacheGet, h, ih]

theorem cacheGet_set_ne (c : Cache) (k k' : String) (v : CacheEntry)
    (h : k' ≠ k) : cacheGet (cacheSet c k v) k' = cacheGet c k' := by
  induction c with
  | nil =>
    simp only [cacheSet, cacheGet]
    rw [if_neg (fun hh => h (Eq.symm hh))]
  | cons hd tl ih =>
    obtain ⟨k0, v0⟩ := hd
    simp only [cacheSet]
    by_cases h0 : k0 = k
    · subst h0
      simp only [if_pos rfl, cacheGet]
      rw [if_neg (fun hh => h (Eq.symm hh)), if_neg (fun hh => h (Eq.symm hh))]
    · simp only [if_neg h0, cacheGet]
      by_cases h1 : k0 = k'
      · rw [if_pos h1, if_pos h1]
      · rw [if_neg h1, if_neg h1]
        exact ih

theorem callback_preserves_entry (co cid cs : Option String) (cache : Cache)
    (w : ExchangeWire) (now : Nat) (k : String) (e : CacheEntry)
    (h : cacheGet cache k = some e) :
    cacheGet (callbackHandler co cid cs cache w now).cache k = some e := by
  unfold callbackHandler
  by_cases h1 : strFalsy co = true
  · simp [h1, callbackError, h]
  · by_cases h2 : (strFalsy cid || strFalsy cs) = true
    · simp [h1, h2, callbackError, h]
    · simp only [h1, h2, Bool.false_eq_true, if_false]
      cases hm : cacheGet cache (co.getD "") with
      | some entry => simp [h]
      | none =>
        cases ht : tokenPhase w with
        | success tok =>
          have hne : k ≠ co.getD "" := by
            intro hk; rw [hk, hm] at h; exact Option.noConfusion h
          simp [cacheGet_set_ne _ _ _ _ hne, h]
        | failure m => simp [callbackError, h]

/-- C1: a code submitted twice within the retention window triggers the
outbound exchange at most once — the first request exchanges and stores,
the second reads the cache without exchanging, both receive the same
token — and a cache entry, once inserted for a code, is never
overwritten by any later handler invocation. -/
theorem C1_duplicate_code_single_exchange
    (cd cid cs : String) (cache : Cache) (w1 w2 : ExchangeWire) (tok : Json)
    (now1 now2 : Nat)
    (hcd : cd ≠ "") (hcid : cid ≠ "") (hcs : cs ≠ "")
    (hmiss : cacheGet cache cd = none)
    (hex : tokenPhase w1 = .success tok) :
    (callbackHandler (some cd) (some cid) (some cs) cache w1 now1).exchangeCalled
        = true ∧
    (callbackHandler (some cd) (some cid) (some cs)
        (callbackHandler (some cd) (some cid) (some cs) cache w1 now1).cache
        w2 now2).exchangeCalled = false ∧
    (callbackHandler (some cd) (some cid) (some cs) cache w1 now1).body
        = .script (successScript provider tok) ∧
    (callbackHandler (some cd) (some cid) (some cs)
        (callbackHandler (some cd) (some cid) (some cs) cache w1 now1).cache
        w2 now2).body = .script (successScript provider tok) ∧
    (callbackHandler (some cd) (some cid) (some cs)
        (callbackHandler (some cd) (some cid) (some cs) cache w1 now1).cache
        w2 now2).cache
      = (callbackHandler (some cd) (some cid) (some cs) cache w1 now1).cache ∧
    cacheGet (callbackHandler (some cd) (some cid) (some cs) cache w1 now1).cache cd
      = some ⟨tok, now1⟩ ∧
    (∀ (co cid' cs' : Option String) (cache' : Cache) (w' : ExchangeWire)
        (n' : Nat) (k : String) (e : CacheEntry),
      cacheGet cache' k = some e →
      cacheGet (callbackHandler co cid' cs' cache' w' n').cache k = some e) := by
  have hf1 : strFalsy (some cd) = false := by simp [strFalsy, hcd]
  have hf2 : strFalsy (some cid) = false := by simp [strFalsy, hcid]
  have hf3 : strFalsy (some cs) = false := by simp [strFalsy, hcs]
  have hr1 : callbackHandler (some cd) (some cid) (some cs) cache w1 now1
      = ⟨200, .script (successScript provider tok),
          cacheSet cache cd ⟨tok, now1⟩, true⟩ := by
    unfold callbackHandler
    simp [hf1, hf2, hf3, hmiss, hex]
  have hget : cacheGet (cacheSet cache cd ⟨tok, now1⟩) cd = some ⟨tok, now1⟩ :=
    cacheGet_set_self cache cd ⟨tok, now1⟩
  have hr2 : callbackHandler (some cd) (some cid) (some cs)
      (cacheSet cache cd ⟨tok, now1⟩) w2 now2
      = ⟨200, .script (successScript provider tok),
          cacheSet cache cd ⟨tok, now1⟩, false⟩ := by
    unfold callbackHandler
    simp [hf1, hf2, hf3, hget]
  refine ⟨?_, ?_, ?_, ?_, ?_, ?_, callback_preserves_entry⟩ <;>
    simp [hr1, hr2, hget]

/-- C1 witness: concrete duplicate submission of code c1. -/
theorem C1_duplicate_code_single_exchange_witness :
    (callbackHandler (some "c1") (some "id") (some "sec") []
        (.response (some (.obj [("access_token", .str "tok")]))) 10).exchangeCalled
        = true ∧
    (callbackHandler (some "c1") (some "id") (some "sec")
        (callbackHandler (some "c1") (some "id") (some "sec") []
          (.response (some (.obj [("access_token", .str "tok")]))) 10).cache
        (.response none) 20).exchangeCalled = false ∧
    (callbackHandler (some "c1") (some "id") (some "sec") []
        (.response (some (.obj [("access_token", .str "tok")]))) 10).body
        = .script (successScript provider (.str "tok")) ∧
    (callbackHandler (some "c1") (some "id") (some "sec")
        (callbackHandler (some "c1") (some "id") (some "sec") []
          (.response (some (.obj [("access_token", .str "tok")]))) 10).cache
        (.response none) 20).body
        = .script (successScript provider (.str "tok")) := by
  have h := C1_duplicate_code_single_exchange "c1" "id" "sec" []
    (.response (some (.obj [("access_token", .str "tok")]))) (.response none)
    (.str "tok") 10 20
    (by decide) (by decide) (by decide) (by rfl) (by rfl)
  exact ⟨h.1, h.2.1, h.2.2.1, h.2.2.2.1⟩

/-- C8: a sweep tick removes exactly the entries whose age exceeds the
5-minute retention window, retains the rest unchanged (in order, as a
sublist), and the sweep timer period is 60 seconds. -/
theorem C8_sweep_retention :
    (∀ (now : Nat) (c : Cache) (k : String) (e : CacheEntry),
      (k, e) ∈ sweep now c ↔ (k, e) ∈ c ∧ now - e.timestamp ≤ retentionMs) ∧
    (∀ (now : Nat) (c : Cache), (sweep now c).Sublist c) ∧
    sweepIntervalMs = 60 * 1000 ∧ retentionMs = 5 * 60 * 1000 := by
  refine ⟨?_, ?_, rfl, rfl⟩
  · intro now c k e
    simp [sweep, List.mem_filter, Nat.not_lt]
  · intro now c
    exact List.filter_sublist c

/-! ## Callback error behaviour -/

theorem callback_status_always_200 (code cid cs : Option String) (cache : Cache)
    (w : ExchangeWire) (now : Nat) :
    (callbackHandler code cid cs cache w now).status = 200 := by
  unfold callbackHandler
  by_cases h1 : strFalsy code = true
  · simp [h1, callbackError]
  · by_cases h2 : (strFalsy cid || strFalsy cs) = true
    · simp [h1, h2, callbackError]
    · simp only [h1, h2, Bool.false_eq_true, if_false]
      cases cacheGet cache (code.getD "") with
      | some e => rfl
      | none =>
        cases tokenPhase w with
        | success t => rfl
        | failure m => rfl

/-- C5: on any callback failure (missing code, missing credentials, exchange
or transport error) the response status is 200 and the body is the error
script, which performs a single postMessage of the error signal carrying
the JSON-serialized error message and contains no window.close. -/
theorem C5_callback_failure_always_200
    (code cid cs : Option String) (cache : Cache) (w : ExchangeWire) (now : Nat)
    (hfail : strFalsy code = true ∨ strFalsy cid = true ∨ strFalsy cs = true ∨
      (∃ c, code = some c ∧ cacheGet cache c = none ∧
        ∃ m, tokenPhase w = .failure m)) :
    (callbackHandler code cid cs cache w now).status = 200 ∧
    (∃ m, (callbackHandler code cid cs cache w now).body
        = .script (errorScript provider m)) ∧
    (∀ p m, (errorScript p m).length = 1 ∧
      ScriptAction.windowClose ∉ errorScript p m ∧
      errorScript p m
        = [.postMessage ("authorization:" ++ p ++ ":error:"
            ++ Json.stringify (.obj [("error", .str m)]))]) := by
  refine ⟨callback_status_always_200 code cid cs cache w now, ?_, ?_⟩
  · by_cases h1 : strFalsy code = true
    · exact ⟨"Missing code", by simp [callbackHandler, h1, callbackError]⟩
    · by_cases h2 : (strFalsy cid || strFalsy cs) = true
      · exact ⟨"Missing credentials", by simp [callbackHandler, h1, h2, callbackError]⟩
      · rcases hfail with h | h | h | ⟨c, hc, hmiss, m, hm⟩
        · exact absurd h h1
        · exact absurd (by simp [h]) h2
        · exact absurd (by simp [h]) h2
        · subst hc
          refine ⟨m, ?_⟩
          simp [callbackHandler, h1, h2, hmiss, hm, callbackError]
  · intro p m
    refine ⟨rfl, ?_, rfl⟩
    simp [errorScript]

/-- C5 witness: a callback request with no code parameter. -/
theorem C5_callback_failure_always_200_witness :
    (callbackHandler none (some "id") (some "sec") [] (.response none) 0).status
      = 200 ∧
    (∃ m, (callbackHandler none (some "id") (some "sec") [] (.response none) 0).body
      = .script (errorScript provider m)) := by
  have h := C5_callback_failure_always_200 none (some "id") (some "sec") []
    (.response none) 0 (Or.inl rfl)
  exact ⟨h.1, h.2.1⟩

/-! ## Configuration-missing behaviour (C2) -/

theorem membership_trace (t : String) (w : MembershipWire) :
    (checkOrgMembership t w).2.head? = some (.identityLookup t) ∧
    ∀ k ct, OutboundCall.uploadRelay k ct ∉ (checkOrgMembership t w).2 := by
  unfold checkOrgMembership
  cases getUsername w.identity <;> simp

/-- C2 counterexample: a callback request with a code but no configured
credentials responds 200 (with the error script), not 500, although no
outbound call is attempted. -/
theorem C2_counterexample :
    (callbackHandler (some "c") none none [] (.response none) 0).status = 200 ∧
    ¬ (callbackHandler (some "c") none none [] (.response none) 0).status = 500 ∧
    (callbackHandler (some "c") none none [] (.response none) 0).exchangeCalled
      = false := by
  refine ⟨rfl, ?_, rfl⟩
  intro h
  rw [show (callbackHandler (some "c") none none [] (.response none) 0).status
      = 200 from rfl] at h
  exact absurd h (by decide)

/-- C2 amended: a missing login client id yields 500 with no outbound call;
a missing API key in the plain upload handler yields 500 with no outbound
call; missing callback credentials yield a 200 error-script response with
no outbound call; a missing API key in the auth upload handler yields 500
only after the membership-verification outbound calls have run (and
without ever invoking the upload relay). -/
theorem C2_config_missing
    (host : String) (cid0 : Option String) (bytes : List Nat)
    (hcid0 : strFalsy cid0 = true)
    (req0 : UploadRequest) (key0 : Option String) (u0 : UploadNet)
    (hm0 : req0.method = "POST") (hk0 : strFalsy key0 = true)
    (cd : String) (cid cs : Option String) (cache : Cache) (w : ExchangeWire)
    (now : Nat) (hcd : cd ≠ "") (hcreds : (strFalsy cid || strFalsy cs) = true)
    (req : UploadRequest) (key : Option String) (uw : UploadWire) (a : String)
    (hm : req.method = "POST") (ha : req.authorization = some a)
    (hpre : strStartsWith a "Bearer " = true)
    (hmem : (checkOrgMembership (replaceFirst a "Bearer " "") uw.membership).1
        = true)
    (hk : strFalsy key = true) :
    loginHandler host cid0 bytes
      = ⟨500, none, .text "Missing OAUTH_GITHUB_CLIENT_ID"⟩ ∧
    uploadPlainHandler req0 key0 u0
      = ⟨500, errJson "Missing upload API key", []⟩ ∧
    callbackHandler (some cd) cid cs cache w now
      = ⟨200, .script (errorScript provider "Missing credentials"), cache, false⟩ ∧
    uploadAuthHandler req key uw
      = ⟨500, errJson "Missing upload API key",
          (checkOrgMembership (replaceFirst a "Bearer " "") uw.membership).2⟩ ∧
    OutboundCall.identityLookup (replaceFirst a "Bearer " "")
      ∈ (uploadAuthHandler req key uw).calls ∧
    (∀ k ct, OutboundCall.uploadRelay k ct ∉ (uploadAuthHandler req key uw).calls) := by
  have hane : a ≠ "" := by
    intro h0
    subst h0
    exact absurd hpre (by decide)
  have hafalse : strFalsy (some a) = false := by
    simp [strFalsy, hane]
  have hauth : uploadAuthHandler req key uw
      = ⟨500, errJson "Missing upload API key",
          (checkOrgMembership (replaceFirst a "Bearer " "") uw.membership).2⟩ := by
    unfold uploadAuthHandler
    rw [hm, ha]
    simp [hafalse, hpre, hmem, hk]
  refine ⟨?_, ?_, ?_, hauth, ?_, ?_⟩
  · simp [loginHandler, hcid0]
  · unfold uploadPlainHandler
    rw [hm0]
    simp [hk0]
  · unfold callbackHandler
    have h1 : strFalsy (some cd) = false := by simp [strFalsy, hcd]
    simp [h1, hcreds, callbackError]
  · rw [hauth]
    have ht := membership_trace (replaceFirst a "Bearer " "") uw.membership
    rcases hh : (checkOrgMembership (replaceFirst a "Bearer " "") uw.membership).2
      with _ | ⟨x, rest⟩
    · rw [hh] at ht
      exact absurd ht.1 (by simp)
    · rw [hh] at ht
      have : x = .identityLookup (replaceFirst a "Bearer " "") := by
        have h2 := ht.1
        simp at h2
        exact h2
      simp [this]
  · intro k ct
    rw [hauth]
    exact (membership_trace (replaceFirst a "Bearer " "") uw.membership).2 k ct

/-- C2 witness: concrete requests for each of the four amended clauses. -/
theorem C2_config_missing_witness :
    (loginHandler "h" none []).status = 500 ∧
    (uploadPlainHandler ⟨"POST", none, some "ct"⟩ none (.response none)).status
      = 500 ∧
    (uploadPlainHandler ⟨"POST", none, some "ct"⟩ none (.response none)).calls
      = [] ∧
    (callbackHandler (some "c") none none [] (.response none) 0).status = 200 ∧
    (uploadAuthHandler ⟨"POST", some "Bearer t", some "ct"⟩ none
        ⟨⟨.body (some (.obj [("login", .str "u")])), .status 204⟩,
         .response none⟩).status = 500 ∧
    OutboundCall.identityLookup "t"
      ∈ (uploadAuthHandler ⟨"POST", some "Bearer t", some "ct"⟩ none
          ⟨⟨.body (some (.obj [("login", .str "u")])), .status 204⟩,
           .response none⟩).calls := by
  have h := C2_config_missing "h" none [] rfl
    ⟨"POST", none, some "ct"⟩ none (.response none) rfl rfl
    "c" none none [] (.response none) 0 (by decide) rfl
    ⟨"POST", some "Bearer t", some "ct"⟩ none
    ⟨⟨.body (some (.obj [("login", .str "u")])), .status 204⟩, .response none⟩
    "Bearer t" rfl rfl (by decide) rfl rfl
  refine ⟨by rw [h.1], by rw [h.2.1], by rw [h.2.1], by rw [h.2.2.1], by rw [h.2.2.2.1], ?_⟩
  have := h.2.2.2.2.1
  simpa using this

/-! ## Token-exchange error classification (C6) -/

/-- C6 counterexample: a parsed exchange response that carries an error
field whose value is the empty string (falsy) together with an access
token does not fail at all — the handler returns the token — so failing
with a provider error exactly when an error field is present is false. -/
theorem C6_counterexample :
    Json.get (.obj [("error", .str ""), ("access_token", .str "tok")]) "error"
      = some (.str "") ∧
    tokenPhase (.response (some (.obj [("error", .str ""),
        ("access_token", .str "tok")])))
      = .success (.str "tok") ∧
    ∀ m, ¬ tokenPhase (.response (some (.obj [("error", .str ""),
        ("access_token", .str "tok")])))
      = .failure m := by
  refine ⟨rfl, rfl, ?_⟩
  intro m h
  rw [show tokenPhase (.response (some (.obj [("error", .str ""),
      ("access_token", .str "tok")]))) = .success (.str "tok") from rfl] at h
  exact TokenOutcome.noConfusion h

/-- C6 amended: the exchange fails with the combined provider message
exactly when the parsed response carries a truthy error field; it fails
with the missing-token message when the error field is falsy or absent
and the access_token field is falsy or absent; a non-parseable body fails
with the distinct fixed message of exchangeToken. -/
theorem C6_exchange_error_classification
    (fs gs : List (String × Json)) (e : Json)
    (he : Json.get (.obj fs) "error" = some e) (ht : e.truthy = true)
    (hg1 : jsTruthy (Json.get (.obj gs) "error") = false)
    (hg2 : jsTruthy (Json.get (.obj gs) "access_token") = false) :
    tokenPhase (.response (some (.obj fs)))
      = .failure ("GitHub: " ++ jsToString e ++ " - "
          ++ jsOptToString (Json.get (.obj fs) "error_description")) ∧
    tokenPhase (.response (some (.obj gs)))
      = .failure "No access_token in response" ∧
    tokenPhase (.response none) = .failure "Invalid response from GitHub" ∧
    "Invalid response from GitHub" ≠ "No access_token in response" ∧
    "Invalid response from GitHub" ≠ "GitHub: bad_verification_code - undefined" := by
  refine ⟨?_, ?_, rfl, by decide, by decide⟩
  · simp [tokenPhase, exchangeToken, he, ht]
  · have hacc : accessTokenCheck (.obj gs) = .failure "No access_token in response" := by
      unfold accessTokenCheck
      cases hx : Json.get (.obj gs) "access_token" with
      | none => rfl
      | some t =>
        rw [hx] at hg2
        simp [jsTruthy] at hg2
        simp [hg2]
    cases hx : Json.get (.obj gs) "error" with
    | none => simp [tokenPhase, exchangeToken, hx, hacc]
    | some t =>
      rw [hx] at hg1
      simp [jsTruthy] at hg1
      simp [tokenPhase, exchangeToken, hx, hg1, hacc]

/-- C6 witness: concrete exchange responses for each clause. -/
theorem C6_exchange_error_classification_witness :
    tokenPhase (.response (some (.obj [("error", .str "bad_verification_code")])))
      = .failure "GitHub: bad_verification_code - undefined" ∧
    tokenPhase (.response (some (.obj [("scope", .str "repo")])))
      = .failure "No access_token in response" ∧
    tokenPhase (.response none) = .failure "Invalid response from GitHub" := by
  have h := C6_exchange_error_classification
    [("error", .str "bad_verification_code")] [("scope", .str "repo")]
    (.str "bad_verification_code") rfl rfl rfl rfl
  exact ⟨h.1, h.2.1, h.2.2.1⟩

/-! ## Upload-handler auth and membership behaviour (C3, C7, C10) -/

theorem uploadAuth_401_iff (req : UploadRequest) (key : Option String)
    (w : UploadWire) (hm : req.method = "POST") :
    (uploadAuthHandler req key w).status = 401
      ↔ (strFalsy req.authorization
          || !(strStartsWith (req.authorization.getD "") "Bearer ")) = true := by
  by_cases hc : (strFalsy req.authorization
      || !(strStartsWith (req.authorization.getD "") "Bearer ")) = true
  · refine iff_of_true ?_ hc
    unfold uploadAuthHandler
    rw [hm]
    simp [hc]
  · refine iff_of_false ?_ hc
    rw [Bool.not_eq_true] at hc
    intro h
    unfold uploadAuthHandler at h
    rw [hm, hc] at h
    simp at h
    repeat' split at h
    all_goals simp_all

theorem uploadAuth_calls_head (req : UploadRequest) (key : Option String)
    (w : UploadWire) (a : String) (hm : req.method = "POST")
    (ha : req.authorization = some a)
    (hpre : strStartsWith a "Bearer " = true) :
    (uploadAuthHandler req key w).calls.head?
      = some (.identityLookup (replaceFirst a "Bearer " "")) := by
  have hane : a ≠ "" := by
    intro h0
    subst h0
    exact absurd hpre (by decide)
  have hafalse : strFalsy (some a) = false := by simp [strFalsy, hane]
  have ht := membership_trace (replaceFirst a "Bearer " "") w.membership
  unfold uploadAuthHandler
  rw [hm, ha]
  simp only [Option.getD_some, hafalse, hpre, Bool.not_true, Bool.or_false,
    Bool.false_eq_true, if_false]
  rw [if_neg (by decide), if_neg (by simp)]
  rcases hms : (checkOrgMembership (replaceFirst a "Bearer " "") w.membership).2
    with _ | ⟨x, rest⟩
  · rw [hms] at ht
    exact absurd ht.1 (by simp)
  · rw [hms] at ht
    have hx : x = .identityLookup (replaceFirst a "Bearer " "") := by
      have h2 := ht.1
      simp at h2
      exact h2
    split
    · simp [hx]
    · split
      · simp [hx]
      · split
        · simp [hx]
        · split
          · simp [hx]
          · split <;> simp [hx]

/-- C7: a POST upload request without a Bearer authorization header is
answered 401 and no outbound call (identity lookup, membership check or
upload relay) is made. -/
theorem C7_upload_401_no_calls (req : UploadRequest) (key : Option String)
    (w : UploadWire) (hm : req.method = "POST")
    (hauth : ∀ a, req.authorization = some a → strStartsWith a "Bearer " = false) :
    (uploadAuthHandler req key w).status = 401 ∧
    (uploadAuthHandler req key w).calls = [] := by
  have hcond : (strFalsy req.authorization
      || !(strStartsWith (req.authorization.getD "") "Bearer ")) = true := by
    cases hA : req.authorization with
    | none => rfl
    | some a => simp [strFalsy, hauth a hA]
  constructor
  · exact (uploadAuth_401_iff req key w hm).mpr hcond
  · unfold uploadAuthHandler
    rw [hm]
    simp [hcond]

/-- C7 witness: a POST upload request with no Authorization header. -/
theorem C7_upload_401_no_calls_witness :
    (uploadAuthHandler ⟨"POST", none, some "ct"⟩ (some "key")
        ⟨⟨.netError, .netError⟩, .response none⟩).status = 401 ∧
    (uploadAuthHandler ⟨"POST", none, some "ct"⟩ (some "key")
        ⟨⟨.netError, .netError⟩, .response none⟩).calls = [] :=
  C7_upload_401_no_calls ⟨"POST", none, some "ct"⟩ (some "key")
    ⟨⟨.netError, .netError⟩, .response none⟩ rfl
    (fun _ h => Option.noConfusion h)

/-- C3: membership is reported exactly for a 204 status from the
org-membership endpoint (any other status or a transport error is
not-a-member); without a username no membership call is made and the
result is false; a non-member upload request is answered 403 with the
upload relay never invoked. -/
theorem C3_membership_only_204
    (tok : String) (w w2 : MembershipWire) (l : Json)
    (hl : getUsername w.identity = some l)
    (h2 : getUsername w2.identity = none)
    (req : UploadRequest) (key : Option String) (uw : UploadWire) (a : String)
    (hm : req.method = "POST") (ha : req.authorization = some a)
    (hpre : strStartsWith a "Bearer " = true)
    (hnm : (checkOrgMembership (replaceFirst a "Bearer " "") uw.membership).1
        = false) :
    ((checkOrgMembership tok w).1 = true ↔ w.member = .status 204) ∧
    (checkOrgMembership tok w2).1 = false ∧
    (∀ u t, OutboundCall.membershipCheck u t ∉ (checkOrgMembership tok w2).2) ∧
    (uploadAuthHandler req key uw).status = 403 ∧
    (∀ k ct, OutboundCall.uploadRelay k ct ∉ (uploadAuthHandler req key uw).calls) := by
  have hane : a ≠ "" := by
    intro h0
    subst h0
    exact absurd hpre (by decide)
  have hafalse : strFalsy (some a) = false := by simp [strFalsy, hane]
  have h403 : uploadAuthHandler req key uw
      = ⟨403, errJson "You must be a member of the WaveSpeedAI organization",
          (checkOrgMembership (replaceFirst a "Bearer " "") uw.membership).2⟩ := by
    unfold uploadAuthHandler
    rw [hm, ha]
    simp [hafalse, hpre, hnm]
  refine ⟨?_, ?_, ?_, ?_, ?_⟩
  · unfold checkOrgMembership
    rw [hl]
    cases w.member with
    | netError => simp
    | status c => simp
  · unfold checkOrgMembership
    rw [h2]
  · intro u t
    unfold checkOrgMembership
    rw [h2]
    simp
  · rw [h403]
  · intro k ct
    rw [h403]
    exact (membership_trace (replaceFirst a "Bearer " "") uw.membership).2 k ct

/-- C3 witness: a 404 membership status with a resolved username yields 403
and no relay call; 204 yields membership. -/
theorem C3_membership_only_204_witness :
    (checkOrgMembership "t" ⟨.body (some (.obj [("login", .str "u")])), .status 204⟩).1
      = true ∧
    (checkOrgMembership "t" ⟨.body (some (.obj [("login", .str "u")])), .status 404⟩).1
      = false ∧
    (checkOrgMembership "t" ⟨.body (some (.obj [("login", .str "u")])), .status 302⟩).1
      = false ∧
    (checkOrgMembership "t" ⟨.netError, .status 204⟩).1 = false ∧
    (uploadAuthHandler ⟨"POST", some "Bearer t", some "ct"⟩ (some "key")
        ⟨⟨.body (some (.obj [("login", .str "u")])), .status 404⟩,
         .response none⟩).status = 403 ∧
    (∀ k ct, OutboundCall.uploadRelay k ct
      ∉ (uploadAuthHandler ⟨"POST", some "Bearer t", some "ct"⟩ (some "key")
          ⟨⟨.body (some (.obj [("login", .str "u")])), .status 404⟩,
           .response none⟩).calls) := by
  have h := C3_membership_only_204 "t"
    ⟨.body (some (.obj [("login", .str "u")])), .status 204⟩
    ⟨.netError, .status 204⟩ (.str "u") rfl rfl
    ⟨"POST", some "Bearer t", some "ct"⟩ (some "key")
    ⟨⟨.body (some (.obj [("login", .str "u")])), .status 404⟩, .response none⟩
    "Bearer t" rfl rfl (by decide) rfl
  have h204 : (checkOrgMembership "t"
      ⟨.body (some (.obj [("login", .str "u")])), .status 204⟩).1 = true :=
    h.1.mpr rfl
  refine ⟨h204, rfl, rfl, h.2.1, h.2.2.2.1, h.2.2.2.2⟩

/-- C10: an Authorization header that is exactly the Bearer prefix with an
empty token passes the prefix check, the extracted token is the empty
string, the handler does not respond 401, and the identity lookup is made
with the empty bearer token. -/
theorem C10_empty_bearer_token (key ct : Option String) (w : UploadWire) :
    strStartsWith "Bearer " "Bearer " = true ∧
    replaceFirst "Bearer " "Bearer " "" = "" ∧
    ¬ (uploadAuthHandler ⟨"POST", some "Bearer ", ct⟩ key w).status = 401 ∧
    (uploadAuthHandler ⟨"POST", some "Bearer ", ct⟩ key w).calls.head?
      = some (.identityLookup "") := by
  refine ⟨rfl, rfl, ?_, ?_⟩
  · intro h
    have hc := (uploadAuth_401_iff ⟨"POST", some "Bearer ", ct⟩ key w rfl).mp h
    have hc2 : (strFalsy (some "Bearer ")
        || !(strStartsWith "Bearer " "Bearer ")) = true := hc
    exact absurd hc2 (by decide)
  · have h := uploadAuth_calls_head ⟨"POST", some "Bearer ", ct⟩ key w "Bearer "
      rfl rfl (by decide)
    rw [h]
    exact rfl

/-! ## Upload Relay response normalization (C4) -/

/-- C4 counterexample: a downstream response with code 200 and a present
but empty data.full_path is rejected with the generic message, not
resolved, so presence of the field is not sufficient. -/
theorem C4_counterexample :
    Json.get (.obj [("full_path", .str "")]) "full_path" = some (.str "") ∧
    uploadParse (some (.obj [("code", .num 200),
        ("data", .obj [("full_path", .str "")])]))
      = .rejected "Upload failed" ∧
    ∀ u, ¬ uploadParse (some (.obj [("code", .num 200),
        ("data", .obj [("full_path", .str "")])])) = .resolved u := by
  refine ⟨rfl, rfl, ?_⟩
  intro u h
  rw [show uploadParse (some (.obj [("code", .num 200),
      ("data", .obj [("full_path", .str "")])]))
    = .rejected "Upload failed" from rfl] at h
  exact UploadOutcome.noConfusion h

/-- C4 amended: the relay resolves with url equal to data.full_path when the
parsed body has numeric code 200 and a present non-empty (truthy)
full_path; a body whose code is not the number 200 is rejected with its
message field when that is a present non-empty string, and the generic
message stands in otherwise; the two concrete examples of the claim hold,
and the empty-full_path body is rejected with the generic message. -/
theorem C4_relay_normalization
    (fs ds : List (String × Json)) (p : String)
    (hcode : Json.get (.obj fs) "code" = some (.num 200))
    (hdata : Json.get (.obj fs) "data" = some (.obj ds))
    (hpath : Json.get (.obj ds) "full_path" = some (.str p)) (hp : p ≠ "")
    (gs : List (String × Json)) (m : String)
    (hgcode : ∀ j, Json.get (.obj gs) "code" = some j → j ≠ .num 200)
    (hgmsg : Json.get (.obj gs) "message" = some (.str m)) (hm : m ≠ "") :
    uploadParse (some (.obj fs)) = .resolved (.str p) ∧
    uploadParse (some (.obj gs)) = .rejected m ∧
    uploadParse (some (.obj [("code", .num 200),
        ("data", .obj [("full_path", .str "/x/y.png")])]))
      = .resolved (.str "/x/y.png") ∧
    uploadParse (some (.obj [("code", .num 500), ("message", .str "boom")]))
      = .rejected "boom" ∧
    uploadParse (some (.obj [("code", .num 200),
        ("data", .obj [("full_path", .str "")])]))
      = .rejected "Upload failed" := by
  refine ⟨?_, ?_, rfl, rfl, rfl⟩
  · simp [uploadParse, hdata, hpath, hcode, jsTruthy, Json.truthy, hp]
  · have hcond : (match Json.get (.obj gs) "code" with
        | some (.num n) => n == 200
        | _ => false) = false := by
      cases hx : Json.get (.obj gs) "code" with
      | none => rfl
      | some j =>
        cases j
        case num n =>
          have hne := hgcode (.num n) hx
          have hn : ¬ n = 200 := by
            intro hh
            exact hne (by rw [hh])
          simp [hn]
        all_goals rfl
    simp [uploadParse, hcond, hgmsg, Json.truthy, hm, jsToString]

/-- C4 witness: the two example bodies of the claim, driven through the
amended theorem. -/
theorem C4_relay_normalization_witness :
    uploadParse (some (.obj [("code", .num 200),
        ("data", .obj [("full_path", .str "/x/y.png")])]))
      = .resolved (.str "/x/y.png") ∧
    uploadParse (some (.obj [("code", .num 500), ("message", .str "boom")]))
      = .rejected "boom" := by
  have h := C4_relay_normalization
    [("code", .num 200), ("data", .obj [("full_path", .str "/x/y.png")])]
    [("full_path", .str "/x/y.png")] "/x/y.png" rfl rfl rfl (by decide)
    [("code", .num 500), ("message", .str "boom")] "boom"
    (by
      intro j hj
      have h2 : some (Json.num 500) = some j := hj
      injection h2 with h3
      rw [← h3]
      intro hbad
      injection hbad with h4
      exact absurd h4 (by decide))
    rfl (by decide)
  exact ⟨h.1, h.2.1⟩

/-! ## Login redirect and state token (C9) -/

theorem toHexChars_length (bs : List Nat) :
    (toHexChars bs).length = 2 * bs.length := by
  induction bs with
  | nil => rfl
  | cons b bs ih =>
    simp only [toHexChars, List.length_cons, ih]
    omega

theorem hexDigit_isLowerHex (n : Nat) (h : n < 16) :
    isLowerHexDigit (hexDigit n) = true := by
  have hall : ∀ m : Fin 16, isLowerHexDigit (hexDigit m.val) = true := by decide
  exact hall ⟨n, h⟩

theorem hexVal_hexDigit (n : Nat) (h : n < 16) : hexVal (hexDigit n) = n := by
  have hall : ∀ m : Fin 16, hexVal (hexDigit m.val) = m.val := by decide
  exact hall ⟨n, h⟩

theorem toHexChars_all_hex (bs : List Nat) (h : ∀ b ∈ bs, b < 256) :
    ∀ c ∈ toHexChars bs, isLowerHexDigit c = true := by
  induction bs with
  | nil => intro c hc; simp [toHexChars] at hc
  | cons b bs ih =>
    intro c hc
    have hb : b < 256 := h b (by simp)
    simp only [toHexChars, List.mem_cons] at hc
    rcases hc with rfl | rfl | hc
    · exact hexDigit_isLowerHex _ (by omega)
    · exact hexDigit_isLowerHex _ (by omega)
    · exact ih (fun x hx => h x (by simp [hx])) c hc

theorem fromHex_toHex (bs : List Nat) (h : ∀ b ∈ bs, b < 256) :
    fromHexChars (toHexChars bs) = bs := by
  induction bs with
  | nil => rfl
  | cons b bs ih =>
    have hb : b < 256 := h b (by simp)
    have h1 : b / 16 < 16 := by omega
    have h2 : b % 16 < 16 := by omega
    simp only [toHexChars, fromHexChars,
      hexVal_hexDigit _ h1, hexVal_hexDigit _ h2]
    rw [ih (fun x hx => h x (by simp [hx]))]
    congr 1
    omega

/-- C9: with a configured client id, the login handler responds 301 with the
provider authorize endpoint carrying client_id, redirect_uri
(https callback on the request host), the fixed scope repo,user, and a
state that hex-encodes the 8 random bytes: 16 lowercase hex characters,
and distinct byte inputs yield distinct state values. -/
theorem C9_login_redirect (host cid : String) (bytes : List Nat)
    (hcid : cid ≠ "") (hlen : bytes.length = 8)
    (hbytes : ∀ b ∈ bytes, b < 256) :
    (loginHandler host (some cid) bytes).status = 301 ∧
    (loginHandler host (some cid) bytes).location
      = some ("https://github.com/login/oauth/authorize",
        [("client_id", cid),
         ("redirect_uri", "https://" ++ host ++ "/callback"),
         ("scope", "repo,user"),
         ("state", toHex bytes)]) ∧
    (toHex bytes).length = 16 ∧
    (∀ c ∈ (toHex bytes).data, isLowerHexDigit c = true) ∧
    (∀ bytes2, bytes2.length = 8 → (∀ b ∈ bytes2, b < 256) →
      toHex bytes = toHex bytes2 → bytes = bytes2) := by
  have hred : loginHandler host (some cid) bytes
      = ⟨301,
          some ("https://github.com/login/oauth/authorize",
            [("client_id", cid),
             ("redirect_uri", "https://" ++ host ++ "/callback"),
             ("scope", "repo,user"),
             ("state", toHex bytes)]),
          .empty⟩ := by
    simp [loginHandler, strFalsy, hcid]
  refine ⟨by rw [hred], by rw [hred], ?_, ?_, ?_⟩
  · have hsl : (toHex bytes).length = (toHexChars bytes).length := rfl
    rw [hsl, toHexChars_length, hlen]
  · intro c hc
    have hd : (toHex bytes).data = toHexChars bytes := rfl
    rw [hd] at hc
    exact toHexChars_all_hex bytes hbytes c hc
  · intro bytes2 _ hb2 heq
    have h3 : toHexChars bytes = toHexChars bytes2 := congrArg String.data heq
    calc bytes = fromHexChars (toHexChars bytes) := (fromHex_toHex bytes hbytes).symm
    _ = fromHexChars (toHexChars bytes2) := by rw [h3]
    _ = bytes2 := fromHex_toHex bytes2 hb2

/-- C9 witness: a concrete byte vector. -/
theorem C9_login_redirect_witness :
    (loginHandler "h.example" (some "id") [1, 2, 3, 4, 5, 6, 255, 0]).status
      = 301 ∧
    (toHex [1, 2, 3, 4, 5, 6, 255, 0]).length = 16 ∧
    toHex [1, 2, 3, 4, 5, 6, 255, 0] = "010203040506ff00" := by
  have h := C9_login_redirect "h.example" "id" [1, 2, 3, 4, 5, 6, 255, 0]
    (by decide) rfl (by decide)
  exact ⟨h.1, h.2.2.1, rfl⟩

/-- C8 witness: a 200-second-old entry survives a sweep, a 400-second-old
entry is removed. -/
theorem C8_sweep_retention_witness :
    ("c", (⟨.str "t", 0⟩ : CacheEntry)) ∈ sweep 200000 [("c", ⟨.str "t", 0⟩)] ∧
    ¬ ("c", (⟨.str "t", 0⟩ : CacheEntry)) ∈ sweep 400000 [("c", ⟨.str "t", 0⟩)] := by
  have h := C8_sweep_retention
  constructor
  · exact (h.1 200000 [("c", ⟨.str "t", 0⟩)] "c" ⟨.str "t", 0⟩).mpr
      ⟨by simp, by norm_num [retentionMs]⟩
  · intro hmem
    have h2 := (h.1 400000 [("c", ⟨.str "t", 0⟩)] "c" ⟨.str "t", 0⟩).mp hmem
    exact absurd h2.2 (by norm_num [retentionMs])

/-- C10 witness: a concrete request whose Authorization header is exactly
the Bearer prefix. -/
theorem C10_empty_bearer_token_witness :
    strStartsWith "Bearer " "Bearer " = true ∧
    replaceFirst "Bearer " "Bearer " "" = "" ∧
    (uploadAuthHandler ⟨"POST", some "Bearer ", some "ct"⟩ (some "key")
        ⟨⟨.netError, .netError⟩, .response none⟩).calls.head?
      = some (.identityLookup "") := by
  have h := C10_empty_bearer_token (some "key") (some "ct")
    ⟨⟨.netError, .netError⟩, .response none⟩
  exact ⟨h.1, h.2.1, h.2.2.2⟩

end NetlifyCmsOauth
